import Mathlib

/-!
Verification of the CloutCheck AI aggregation and scoring engine.

The definitions below are a shallow embedding of the repository code:

* `src/src/pipeline/run_full_pipeline.py` — signal aggregation,
  reputation scoring (`analyze_influencer_posts`), rating (`get_rating`),
  persisted result fields;
* `src/src/brand_fit/brand_analyzer.py` — `BrandFitAnalyzer` (`_check_safety`,
  `_check_excluded_topics`, `_check_values_alignment`, `analyze_fit`);
* `src/src/models/text_toxicity.py` — `detect_spam_patterns`;
* `src/src/models/video_analysis.py` — `_aggregate_frame_scores`;
* `src/src/models/image_nsfw.py` and `src/src/config.py` — NSFW thresholds
  and `validate_config`.

Python floats are modelled by `ℚ`; every numeric literal of the source is
exactly representable in binary floating point or only compared against
values where the float/rational distinction cannot change a branch, so the
rational model is faithful for the properties proved here.
-/

namespace CloutCheck

/-! ### Data model: per-item signals (spec section 3, pipeline dicts) -/

/-- Per-text-unit analysis record, as appended to `text_results` in
`analyze_influencer_posts` (run_full_pipeline.py lines 73-81). -/
structure TextSignal where
  toxicity : ℚ
  severe_toxicity : ℚ
  identity_attack : ℚ
  insult : ℚ
  sentiment_score : ℚ
  spam_score : ℚ
deriving DecidableEq

/-- Per-image-or-video analysis record, as appended to `image_results`
(run_full_pipeline.py lines 98-99 and 138-143). -/
structure VisualSignal where
  nsfw_score : ℚ
  is_nsfw : Bool
  safe_score : ℚ
deriving DecidableEq

/-! ### Signal aggregation (run_full_pipeline.py lines 156-161, 177-179, 205-210) -/

/-- Python `max(generator, default=0)`: the maximum of a nonempty list,
and `0` for the empty list. -/
def maxWithDefaultZero (l : List ℚ) : ℚ :=
  match l with
  | [] => 0
  | x :: xs => xs.foldl max x

/-- Python pattern `sum(f(r) for r in rs) / len(rs) if rs else 0`
(run_full_pipeline.py lines 156-160). -/
def avgOrZero (l : List ℚ) : ℚ :=
  if l.isEmpty then 0 else l.sum / l.length

/-- Creator-level aggregate over the text-signal population. -/
structure TextAggregate where
  avg_toxicity : ℚ
  avg_sentiment : ℚ
  avg_spam : ℚ
  max_identity_attack : ℚ
  max_insult : ℚ
  max_severe : ℚ
deriving DecidableEq

/-- Aggregation of `text_results` (run_full_pipeline.py lines 156-158 and
177-179): arithmetic mean for toxicity, sentiment and spam, Python
`max(..., default=0)` for identity attack, insult and severe toxicity. -/
def aggregateText (ts : List TextSignal) : TextAggregate :=
  { avg_toxicity := avgOrZero (ts.map TextSignal.toxicity)
    avg_sentiment := avgOrZero (ts.map TextSignal.sentiment_score)
    avg_spam := avgOrZero (ts.map TextSignal.spam_score)
    max_identity_attack := maxWithDefaultZero (ts.map TextSignal.identity_attack)
    max_insult := maxWithDefaultZero (ts.map TextSignal.insult)
    max_severe := maxWithDefaultZero (ts.map TextSignal.severe_toxicity) }

/-- Creator-level aggregate over the visual-signal population. -/
structure VisualAggregate where
  avg_nsfw : ℚ
  nsfw_count : ℕ
  nsfw_frac : ℚ
deriving DecidableEq

/-- Python `round(x, 3)` modelled on `ℚ` (run_full_pipeline.py line 209).
Python rounds half to even; this model rounds half away from zero, and
the concrete evaluations below only apply it away from half-way points,
where the two conventions agree. -/
def roundTo3 (q : ℚ) : ℚ := (round (q * 1000) : ℤ) / 1000

/-- Aggregation of `image_results` (run_full_pipeline.py lines 160-161 and
209): mean nsfw score, count of flagged signals, and the flagged ratio
rounded to 3 decimals exactly as line 209 stores it
(`round(nsfw_count / len(image_results), 3)`), each defaulting to 0 on
the empty list. -/
def aggregateVisual (vs : List VisualSignal) : VisualAggregate :=
  { avg_nsfw := avgOrZero (vs.map VisualSignal.nsfw_score)
    nsfw_count := (vs.filter (fun v => v.is_nsfw)).length
    nsfw_frac :=
      if vs.isEmpty then 0
      else roundTo3 (((vs.filter (fun v => v.is_nsfw)).length : ℚ) / vs.length) }

/-! Spec-side aggregation operators, written from the words of spec
section 4.2, used to compare against the code-side aggregation. -/

/-- Modelled from the spec wording: arithmetic mean of a list of values
(in `ℚ`, the empty list gives `0 / 0 = 0`, matching the spec default). -/
def specMean (l : List ℚ) : ℚ := l.sum / l.length

/-- Modelled from the spec wording: maximum of a list of values, `0` when
the population is empty. -/
def specMax (l : List ℚ) : ℚ := l.foldr max 0

/-- Modelled from the spec wording: `count / total`, `0` if `total = 0`. -/
def specRatio (count total : ℕ) : ℚ :=
  if total = 0 then 0 else (count : ℚ) / total

/-! ### Reputation scorer (run_full_pipeline.py lines 169-188) -/

/-- The creator summary fed to the reputation formula: the unrounded
aggregates computed in `analyze_influencer_posts`. -/
structure CreatorSummary where
  avg_toxicity : ℚ
  avg_sentiment : ℚ
  avg_spam : ℚ
  avg_nsfw : ℚ
  max_identity_attack : ℚ
  max_insult : ℚ
  max_severe : ℚ
deriving DecidableEq

/-- Severe-infraction penalty (run_full_pipeline.py lines 181-184):
starts at 0, adds 20 / 10 / 30 when the respective maximum exceeds 0.1. -/
def severePenalty (ia ins sev : ℚ) : ℚ :=
  (if ia > 1/10 then 20 else 0)
    + (if ins > 1/10 then 10 else 0)
    + (if sev > 1/10 then 30 else 0)

/-- Reputation score (run_full_pipeline.py lines 171-188):
`max(0, min(100, 100 - toxicity_penalty - spam_penalty - nsfw_penalty
- severe_penalty + sentiment_bonus))`. -/
def reputationScore (s : CreatorSummary) : ℚ :=
  max 0 (min 100
    (100 - s.avg_toxicity * 30 - s.avg_spam * 20 - s.avg_nsfw * 30
      - severePenalty s.max_identity_attack s.max_insult s.max_severe
      + max 0 s.avg_sentiment * 10))

/-- Modelled from the spec wording: `clamp(x, lo, hi)`. -/
def clamp (lo hi x : ℚ) : ℚ := max lo (min hi x)

/-- Rating label for the reputation score (run_full_pipeline.py
lines 241-252, `get_rating`). -/
def get_rating (score : ℚ) : String :=
  if score ≥ 90 then "Excellent"
  else if score ≥ 75 then "Good"
  else if score ≥ 60 then "Fair"
  else if score ≥ 40 then "Poor"
  else "Very Poor"

/-- Python `round(x, 2)` modelled on `ℚ` (run_full_pipeline.py line 219).
Python rounds half to even; this model rounds half away from zero, and is
only ever applied here away from exact half-way points, where the two
conventions agree. -/
def roundTo2 (q : ℚ) : ℚ := (round (q * 100) : ℤ) / 100

/-- Python `round(x, 1)` modelled on `ℚ` (brand_analyzer.py line 81),
with the same half-way caveat as `roundTo2`. -/
def roundTo1 (q : ℚ) : ℚ := (round (q * 10) : ℤ) / 10

/-- The reputation fields of the persisted result document
(run_full_pipeline.py lines 219-220): the stored `reputation_score` is the
score rounded to 2 decimals, while the stored `rating` is computed from the
unrounded score. -/
def persistedReputation (score : ℚ) : ℚ × String :=
  (roundTo2 score, get_rating score)

/-! ### Brand fit analyzer (brand_analyzer.py) -/

/-- The `safety_thresholds` block of a brand profile, with each value
already resolved through the `.get(key, 1.0)` defaults used in
`_check_safety` (brand_analyzer.py lines 102-125). -/
structure SafetyThresholds where
  max_toxicity : ℚ
  max_identity_attack : ℚ
  max_insult : ℚ
  max_severe_toxicity : ℚ
  max_nsfw : ℚ
deriving DecidableEq

/-- The fields of the pipeline `results` document read by the brand fit
analyzer: the `text_analysis` and `image_analysis` blocks
(run_full_pipeline.py lines 196-210). -/
structure AnalysisSnapshot where
  avg_toxicity : ℚ
  avg_sentiment : ℚ
  max_identity_attack : ℚ
  max_insult : ℚ
  max_severe_toxicity : ℚ
  avg_nsfw_score : ℚ
  nsfw_images_found : ℕ
deriving DecidableEq

/-- A risk factor appended by `_check_safety` or `_check_excluded_topics`.
Each constructor stands for exactly one of the formatted f-strings of
brand_analyzer.py (lines 105, 111, 116, 121, 128, 133), carrying the
values interpolated into the string. -/
inductive RiskFactor where
  | highAvgToxicity (value threshold : ℚ)
  | identityAttack (value threshold : ℚ)
  | insultingContent (value threshold : ℚ)
  | severeToxicity (value threshold : ℚ)
  | nsfwContent (value : ℚ)
  | nsfwImages (count : ℕ)
  | excludedTopic (topic : String)
deriving DecidableEq

/-- The safety sub-score before the final `max(0.0, score)` floor
(brand_analyzer.py lines 94-132): 100 minus one fixed penalty per
triggered threshold check, minus `20 * nsfw_images_found` when any
image was flagged. -/
def rawSafetyScore (th : SafetyThresholds) (r : AnalysisSnapshot) : ℚ :=
  100 - (if r.avg_toxicity > th.max_toxicity then 30 else 0)
    - (if r.max_identity_attack > th.max_identity_attack then 40 else 0)
    - (if r.max_insult > th.max_insult then 20 else 0)
    - (if r.max_severe_toxicity > th.max_severe_toxicity then 50 else 0)
    - (if r.avg_nsfw_score > th.max_nsfw then 40 else 0)
    - (if 0 < r.nsfw_images_found then 20 * (r.nsfw_images_found : ℚ) else 0)

/-- The risks list built by `_check_safety`, one entry per triggered
check, in source order (brand_analyzer.py lines 102-133). -/
def safetyRisks (th : SafetyThresholds) (r : AnalysisSnapshot) : List RiskFactor :=
  (if r.avg_toxicity > th.max_toxicity
    then [RiskFactor.highAvgToxicity r.avg_toxicity th.max_toxicity] else [])
  ++ (if r.max_identity_attack > th.max_identity_attack
    then [RiskFactor.identityAttack r.max_identity_attack th.max_identity_attack] else [])
  ++ (if r.max_insult > th.max_insult
    then [RiskFactor.insultingContent r.max_insult th.max_insult] else [])
  ++ (if r.max_severe_toxicity > th.max_severe_toxicity
    then [RiskFactor.severeToxicity r.max_severe_toxicity th.max_severe_toxicity] else [])
  ++ (if r.avg_nsfw_score > th.max_nsfw
    then [RiskFactor.nsfwContent r.avg_nsfw_score] else [])
  ++ (if 0 < r.nsfw_images_found
    then [RiskFactor.nsfwImages r.nsfw_images_found] else [])

/-- `BrandFitAnalyzer._check_safety` (brand_analyzer.py lines 92-135):
returns the floored safety sub-score and the risks list. -/
def checkSafety (th : SafetyThresholds) (r : AnalysisSnapshot) :
    ℚ × List RiskFactor :=
  (max 0 (rawSafetyScore th r), safetyRisks th r)

/-- `BrandFitAnalyzer._check_excluded_topics` (brand_analyzer.py
lines 137-153): unconditionally returns `(100.0, [])`; the body never
reads the excluded-topics list or the results. -/
def checkExcludedTopics (excluded : List String) (r : AnalysisSnapshot) :
    ℚ × List RiskFactor :=
  (100, [])

/-- `BrandFitAnalyzer._check_values_alignment` (brand_analyzer.py
lines 155-166): +5 and a match when `avg_sentiment > 0.5`. -/
def checkValuesAlignment (r : AnalysisSnapshot) : ℚ × List String :=
  if r.avg_sentiment > 1/2 then (5, ["Positive sentiment"]) else (0, [])

/-- A brand profile as consumed by `BrandFitAnalyzer`. -/
structure BrandProfile where
  name : String
  safety_thresholds : SafetyThresholds
  excluded_topics : List String

/-- A reason string appended by `analyze_fit`; each constructor stands for
one of the formatted f-strings of brand_analyzer.py (lines 54, 61, 67). -/
inductive FitReason where
  | safetyViolations (deficit : ℚ)
  | excludedTopicsFound (deficit : ℚ)
  | valuesBonus (bonus : ℚ)
deriving DecidableEq

/-- The dictionary returned by `analyze_fit` (brand_analyzer.py
lines 79-90); the three `details` sub-scores are inlined as fields. -/
structure FitResult where
  brand_name : String
  fit_score : ℚ
  rating : String
  risk_factors : List RiskFactor
  reasons : List FitReason
  safety_score : ℚ
  topic_score : ℚ
  values_score : ℚ

/-- Rating label for the brand fit score (brand_analyzer.py
lines 73-77). -/
def brandRating (score : ℚ) : String :=
  if score ≥ 90 then "Perfect Match"
  else if score ≥ 75 then "Good Fit"
  else if score ≥ 60 then "Moderate Risk"
  else if score ≥ 40 then "High Risk"
  else "Unsafe / Do Not Partner"

/-- `BrandFitAnalyzer.analyze_fit` (brand_analyzer.py lines 33-90):
start at 100, reapply the safety and topic deficits when their risk lists
are nonempty, add the values bonus when a match was found, clamp to
[0, 100], round the stored score to one decimal and rate the unrounded
score. -/
def analyzeFit (p : BrandProfile) (r : AnalysisSnapshot) : FitResult :=
  let sres := checkSafety p.safety_thresholds r
  let tres := checkExcludedTopics p.excluded_topics r
  let vres := checkValuesAlignment r
  let score1 : ℚ := if sres.2.isEmpty then 100 else 100 - (100 - sres.1)
  let score2 : ℚ := if tres.2.isEmpty then score1 else score1 - (100 - tres.1)
  let score3 : ℚ := if vres.2.isEmpty then score2 else score2 + vres.1
  let score : ℚ := max 0 (min 100 score3)
  { brand_name := p.name
    fit_score := roundTo1 score
    rating := brandRating score
    risk_factors :=
      (if sres.2.isEmpty then [] else sres.2)
        ++ (if tres.2.isEmpty then [] else tres.2)
    reasons :=
      (if sres.2.isEmpty then [] else [FitReason.safetyViolations (100 - sres.1)])
        ++ (if tres.2.isEmpty then [] else [FitReason.excludedTopicsFound (100 - tres.1)])
        ++ (if vres.2.isEmpty then [] else [FitReason.valuesBonus vres.1])
    safety_score := sres.1
    topic_score := tres.1
    values_score := vres.1 }

/-! ### Spam pattern detection (text_toxicity.py lines 228-275) -/

/-- `true` when the first list is an initial segment of the second. -/
def charsStartWith : List Char → List Char → Bool
  | [], _ => true
  | _ :: _, [] => false
  | a :: as, b :: bs => a == b && charsStartWith as bs

/-- `true` when the first list occurs contiguously inside the second. -/
def charsContain (needle hay : List Char) : Bool :=
  match hay with
  | [] => needle.isEmpty
  | _ :: t => charsStartWith needle hay || charsContain needle t

/-- Python `needle in hay` substring test on strings. -/
def strContains (hay needle : String) : Bool :=
  charsContain needle.toList hay.toList

/-- The `spam_keywords` list of `detect_spam_patterns`
(text_toxicity.py lines 245-250). -/
def spamKeywords : List String :=
  ["click link", "link in bio", "dm for", "check profile",
   "follow me", "follow back", "like and comment",
   "tag a friend", "giveaway", "contest", "win free",
   "limited time", "act now", "don\x27t miss"]

/-- The dictionary returned by `detect_spam_patterns`. -/
structure SpamResult where
  is_spam : Bool
  spam_score : ℚ
  patterns : List String
deriving DecidableEq

/-- The `patterns_found` list accumulated by `detect_spam_patterns`
(text_toxicity.py lines 242-267): matched keywords in list order, then
the excessive-emoji flag (ratio of non-ASCII characters above 0.2), then
the excessive-caps flag (ratio of uppercase characters above 0.3).
Lowercasing and the character classes are modelled on ASCII, which does
not affect the scoring formula. -/
def spamPatternsFound (text : String) : List String :=
  let textLower := text.toLower
  let keywordHits := spamKeywords.filter (fun k => strContains textLower k)
  let len : ℕ := text.toList.length
  let emojiCount : ℕ := (text.toList.filter (fun c => 127 < c.toNat)).length
  let emojiFrac : ℚ := if 0 < len then (emojiCount : ℚ) / len else 0
  let capsCount : ℕ := (text.toList.filter (fun c => c.isUpper)).length
  let capsFrac : ℚ := if 0 < len then (capsCount : ℚ) / len else 0
  keywordHits
    ++ (if emojiFrac > 1/5 then ["excessive_emojis"] else [])
    ++ (if capsFrac > 3/10 then ["excessive_caps"] else [])

/-- `TextAnalyzer.detect_spam_patterns` (text_toxicity.py lines 228-275):
the empty string short-circuits to the all-clear result; otherwise the
score is `min(1.0, 0.25 * len(patterns_found))` and `is_spam` holds
above 0.5. -/
def detect_spam_patterns (text : String) : SpamResult :=
  if text = "" then { is_spam := false, spam_score := 0, patterns := [] }
  else
    let patternsFound := spamPatternsFound text
    let spamScore : ℚ := min 1 ((patternsFound.length : ℚ) * (1/4))
    { is_spam := spamScore > 1/2, spam_score := spamScore, patterns := patternsFound }

/-! ### Video frame aggregation and NSFW thresholds
(video_analysis.py lines 97-127, image_nsfw.py line 89,
run_full_pipeline.py lines 134-143, config.py line 72) -/

/-- Per-frame record produced by the image analyzer for one sampled
video frame. -/
structure FrameSignal where
  nsfw_score : ℚ
  is_nsfw : Bool
deriving DecidableEq

/-- The aggregate returned by `VideoAnalyzer._aggregate_frame_scores`
(video_analysis.py lines 97-127), restricted to the fields the pipeline
reads. -/
structure FrameAnalysis where
  avg_nsfw_score : ℚ
  max_nsfw_score : ℚ
  nsfw_frame_count : ℕ
  total_frames : ℕ
deriving DecidableEq

/-- `VideoAnalyzer._aggregate_frame_scores`: all-zero on the empty list,
otherwise `np.mean` / `np.max` of the per-frame nsfw scores and the count
of flagged frames. -/
def aggregateFrameScores (frames : List FrameSignal) : FrameAnalysis :=
  match frames with
  | [] => { avg_nsfw_score := 0, max_nsfw_score := 0, nsfw_frame_count := 0, total_frames := 0 }
  | f :: fs =>
    { avg_nsfw_score := ((f :: fs).map FrameSignal.nsfw_score).sum / (f :: fs).length
      max_nsfw_score := (fs.map FrameSignal.nsfw_score).foldl max f.nsfw_score
      nsfw_frame_count := ((f :: fs).filter (fun x => x.is_nsfw)).length
      total_frames := (f :: fs).length }

/-- `IMAGE_NSFW_THRESHOLD = float(os.getenv("NSFW_THRESHOLD", "0.7"))`
(config.py line 72), as a function of the optional environment value. -/
def imageNsfwThreshold (env : Option ℚ) : ℚ := env.getD (7/10)

/-- The hardcoded threshold `0.7` used for the synthetic per-video signal
(run_full_pipeline.py line 141). -/
def videoNsfwFlagThreshold : ℚ := 7/10

/-- The flag assigned to an individual image by
`ImageNSFWAnalyzer.analyze_image` (image_nsfw.py line 89):
`nsfw_score > self.threshold` with `self.threshold = IMAGE_NSFW_THRESHOLD`. -/
def imageIsNsfw (env : Option ℚ) (score : ℚ) : Bool :=
  score > imageNsfwThreshold env

/-- The synthetic `VisualSignal` the pipeline appends for one analyzed
video (run_full_pipeline.py lines 134-143): nsfw score is the per-video
frame average, the flag is driven by the per-video frame maximum against
the hardcoded 0.7 threshold. -/
def syntheticVideoSignal (frames : List FrameSignal) : VisualSignal :=
  let fa := aggregateFrameScores frames
  { nsfw_score := fa.avg_nsfw_score
    is_nsfw := fa.max_nsfw_score > videoNsfwFlagThreshold
    safe_score := 1 - fa.avg_nsfw_score }

/-! ### Configuration validation (config.py lines 112-141) -/

/-- The configuration values read by `validate_config`. The weight fields
are module constants in the source (config.py lines 89-98); they are kept
as fields so the validator is a function of the whole configuration. -/
structure Config where
  apify_api_token : Option String
  weight_text_toxicity : ℚ
  weight_image_nsfw : ℚ
  weight_engagement : ℚ
  weight_authenticity : ℚ
  weight_semantic_similarity : ℚ
  weight_category_alignment : ℚ
  weight_value_alignment : ℚ
  weight_audience_fit : ℚ
deriving DecidableEq

/-- Python truthiness of `APIFY_API_TOKEN`: `not APIFY_API_TOKEN` is true
when the variable is unset or the empty string. -/
def tokenMissing (t : Option String) : Bool :=
  match t with
  | none => true
  | some s => s = ""

/-- The `errors` list accumulated by `validate_config`
(config.py lines 114-128). -/
def configErrors (c : Config) : List String :=
  (if tokenMissing c.apify_api_token
    then ["APIFY_API_TOKEN not set in .env file"] else [])
  ++ (if |c.weight_text_toxicity + c.weight_image_nsfw + c.weight_engagement
            + c.weight_authenticity - 1| > 1/100
    then ["Content fusion weights must sum to 1.0"] else [])
  ++ (if |c.weight_semantic_similarity + c.weight_category_alignment
            + c.weight_value_alignment + c.weight_audience_fit - 1| > 1/100
    then ["Brand fit weights must sum to 1.0"] else [])

/-- `validate_config` (config.py lines 112-133): raises `ValueError`
listing the errors when any check fails, else returns `True`. The raise
is modelled as the `Except.error` branch. -/
def validate_config (c : Config) : Except (List String) Bool :=
  match configErrors c with
  | [] => Except.ok true
  | es => Except.error es

/-- The module-level hook run when `src.config` is imported
(config.py lines 136-141): it calls `validate_config` inside
`try/except ValueError` and prints `Warning: ...` on failure, so the
module load itself never propagates the error. The payload records the warning
text printed (the error list), `none` when validation passed; an
`Except.error` result would model an exception escaping the import. -/
def configImport (c : Config) : Except (List String) (Option (List String)) :=
  match validate_config c with
  | Except.ok _ => Except.ok none
  | Except.error es => Except.ok (some es)

/-- The repository configuration with no API token set: the weight
constants of config.py lines 89-98 and an absent `APIFY_API_TOKEN`. -/
def repoConfigNoToken : Config :=
  { apify_api_token := none
    weight_text_toxicity := 1/4
    weight_image_nsfw := 1/4
    weight_engagement := 3/10
    weight_authenticity := 1/5
    weight_semantic_similarity := 3/10
    weight_category_alignment := 1/4
    weight_value_alignment := 1/4
    weight_audience_fit := 1/5 }

/-! ### Label correspondence used for the rating-threshold comparison -/

/-- Modelled from the spec comparison of the two rating scales: the
pointwise relabelling that sends each reputation label to the brand-fit
label of the same threshold band. -/
def fitLabelOf (repLabel : String) : String :=
  if repLabel = "Excellent" then "Perfect Match"
  else if repLabel = "Good" then "Good Fit"
  else if repLabel = "Fair" then "Moderate Risk"
  else if repLabel = "Poor" then "High Risk"
  else "Unsafe / Do Not Partner"

/-- Spec-side count of triggered safety checks, one per threshold
comparison of `_check_safety`. -/
def triggeredSafetyChecks (th : SafetyThresholds) (r : AnalysisSnapshot) : ℕ :=
  (if r.avg_toxicity > th.max_toxicity then 1 else 0)
    + (if r.max_identity_attack > th.max_identity_attack then 1 else 0)
    + (if r.max_insult > th.max_insult then 1 else 0)
    + (if r.max_severe_toxicity > th.max_severe_toxicity then 1 else 0)
    + (if r.avg_nsfw_score > th.max_nsfw then 1 else 0)
    + (if 0 < r.nsfw_images_found then 1 else 0)

/-! ## Theorems -/

/-- C1: for every creator summary the reputation score equals
`clamp(100 - avg_toxicity*30 - avg_spam*20 - avg_nsfw*30 - severe_penalty
+ max(0, avg_sentiment)*10, 0, 100)` with the severe penalty the sum of
the three step penalties; consequently every score, including the
adversarial all-ones summary, lies in [0, 100], and the all-zero summary
scores exactly 100. -/
theorem reputation_score_clamped_formula :
    (∀ s : CreatorSummary,
      reputationScore s = clamp 0 100
        (100 - s.avg_toxicity * 30 - s.avg_spam * 20 - s.avg_nsfw * 30
          - severePenalty s.max_identity_attack s.max_insult s.max_severe
          + max 0 s.avg_sentiment * 10))
    ∧ (∀ s : CreatorSummary, 0 ≤ reputationScore s ∧ reputationScore s ≤ 100)
    ∧ (0 ≤ reputationScore ⟨1, 1, 1, 1, 1, 1, 1⟩
        ∧ reputationScore ⟨1, 1, 1, 1, 1, 1, 1⟩ ≤ 100)
    ∧ reputationScore ⟨0, 0, 0, 0, 0, 0, 0⟩ = 100 := by
  have hb : ∀ s : CreatorSummary, 0 ≤ reputationScore s ∧ reputationScore s ≤ 100 := by
    intro s
    exact ⟨le_max_left 0 _, max_le (by norm_num) (min_le_left _ _)⟩
  refine ⟨fun s => rfl, hb, hb _, ?_⟩
  norm_num [reputationScore, severePenalty]

/-- C3: the severe penalty is the sum of three binary step functions
(20 above 0.1 on identity attack, 10 on insult, 30 on severe toxicity),
each independent of the margin past the threshold: 0.10 contributes
nothing, while any two values strictly above 0.1 contribute the same
amount, in particular 0.11 and 0.99 both contribute exactly 20 on the
identity-attack coordinate. -/
theorem severe_penalty_step_function :
    (∀ ia ins sev : ℚ, severePenalty ia ins sev =
      (if ia > 1/10 then (20 : ℚ) else 0)
        + (if ins > 1/10 then (10 : ℚ) else 0)
        + (if sev > 1/10 then (30 : ℚ) else 0))
    ∧ (∀ ia ia2 ins sev : ℚ, ia > 1/10 → ia2 > 1/10 →
        severePenalty ia ins sev = severePenalty ia2 ins sev)
    ∧ (∀ ins sev : ℚ, severePenalty (1/10) ins sev = severePenalty 0 ins sev)
    ∧ (∀ ins sev : ℚ,
        severePenalty (11/100) ins sev = severePenalty (99/100) ins sev
          ∧ severePenalty (11/100) ins sev = severePenalty (1/10) ins sev + 20) := by
  refine ⟨fun ia ins sev => rfl, ?_, ?_, ?_⟩
  · intro ia ia2 ins sev h1 h2
    simp only [severePenalty, if_pos h1, if_pos h2]
  · intro ins sev
    have h10 : ¬((1 / 10 : ℚ) > 1 / 10) := by norm_num
    have h0 : ¬((0 : ℚ) > 1 / 10) := by norm_num
    simp only [severePenalty, if_neg h10, if_neg h0]
  · intro ins sev
    have h11 : ((11 / 100 : ℚ) > 1 / 10) := by norm_num
    have h99 : ((99 / 100 : ℚ) > 1 / 10) := by norm_num
    have h10 : ¬((1 / 10 : ℚ) > 1 / 10) := by norm_num
    simp only [severePenalty, if_pos h11, if_pos h99, if_neg h10]
    exact ⟨trivial, by ring⟩

/-- Witness for `severe_penalty_step_function`: the margin-independence
conjunct applied at 0.11 and 0.99. -/
theorem severe_penalty_step_function_witness :
    severePenalty (11/100) 0 0 = severePenalty (99/100) 0 0 :=
  severe_penalty_step_function.2.1 (11/100) (99/100) 0 0 (by norm_num) (by norm_num)

/-- C5 counterexample: at score 95 the brand-fit rating is
"Perfect Match" while the reputation rating is "Excellent", so the two
scales do not share their top label as the claim states. -/
theorem brand_rating_label_counterexample :
    brandRating 95 = "Perfect Match" ∧ get_rating 95 = "Excellent"
      ∧ brandRating 95 ≠ get_rating 95 := by
  refine ⟨?_, ?_, ?_⟩
  · unfold brandRating; rw [if_pos (by norm_num)]
  · unfold get_rating; rw [if_pos (by norm_num)]
  · unfold brandRating get_rating
    rw [if_pos (by norm_num : (95 : ℚ) ≥ 90), if_pos (by norm_num : (95 : ℚ) ≥ 90)]
    decide

/-- C5 amended: the brand-fit rating uses the same inclusive lower-bound
thresholds as the reputation rating (≥90, ≥75, ≥60, ≥40, else bottom),
but all five labels differ: the brand labels are the pointwise
relabelling Excellent ↦ Perfect Match, Good ↦ Good Fit,
Fair ↦ Moderate Risk, Poor ↦ High Risk,
Very Poor ↦ Unsafe / Do Not Partner. -/
theorem brand_rating_same_thresholds_relabelled :
    ∀ q : ℚ, brandRating q = fitLabelOf (get_rating q) := by
  intro q
  unfold brandRating get_rating
  split_ifs <;> rfl

/-- C10: for any score in the open interval (89.995, 90), the persisted
document stores `reputation_score` rounded up to 90.0 but `rating`
computed from the unrounded score as "Good"; re-rating the stored score
yields "Excellent", disagreeing with the stored rating. -/
theorem persisted_reputation_inconsistent :
    ∀ q : ℚ, 89995/1000 < q → q < 90 →
      (persistedReputation q).1 = 90
        ∧ (persistedReputation q).2 = "Good"
        ∧ get_rating (persistedReputation q).1 = "Excellent"
        ∧ get_rating (persistedReputation q).1 ≠ (persistedReputation q).2 := by
  intro q h1 h2
  have hr : roundTo2 q = 90 := by
    unfold roundTo2
    have h9 : round (q * 100) = 9000 := by
      rw [round_eq]
      have hfl : (⌊q * 100 + 1 / 2⌋ : ℤ) = 9000 := by
        rw [Int.floor_eq_iff]
        constructor <;> push_cast <;> linarith
      exact hfl
    rw [h9]; norm_num
  have hnot90 : ¬(q ≥ 90) := by simp only [ge_iff_le, not_le]; linarith
  have h75 : q ≥ 75 := by linarith
  have hgood : get_rating q = "Good" := by
    simp only [get_rating, if_neg hnot90, if_pos h75]
  have hexc : get_rating (90 : ℚ) = "Excellent" := by
    have : ((90 : ℚ) ≥ 90) := by norm_num
    simp only [get_rating, if_pos this]
  refine ⟨hr, hgood, ?_, ?_⟩
  · show get_rating (roundTo2 q) = "Excellent"
    rw [hr]; exact hexc
  · show get_rating (roundTo2 q) ≠ get_rating q
    rw [hr, hexc, hgood]; decide

/-- Helper: the Python mean pattern agrees with the spec-side arithmetic
mean on every list (for the empty list both give 0). -/
theorem avgOrZero_eq_specMean (l : List ℚ) : avgOrZero l = specMean l := by
  cases l with
  | nil => simp [avgOrZero, specMean]
  | cons x xs => simp [avgOrZero, specMean]

/-- Helper: folding `max` from the left over a list with a nonnegative
seed equals `max` of the seed with the right fold seeded at 0, when all
elements are nonnegative. -/
theorem foldl_max_eq_max_foldr (x : ℚ) (xs : List ℚ) (hx : 0 ≤ x)
    (hxs : ∀ y ∈ xs, 0 ≤ y) : xs.foldl max x = max x (xs.foldr max 0) := by
  induction xs generalizing x with
  | nil => simp [max_eq_left hx]
  | cons y ys ih =>
    have hy : 0 ≤ y := hxs y (List.mem_cons_self _ _)
    have hys : ∀ z ∈ ys, 0 ≤ z := fun z hz => hxs z (List.mem_cons_of_mem _ hz)
    simp only [List.foldl_cons, List.foldr_cons]
    rw [ih (max x y) (le_trans hx (le_max_left x y)) hys, max_assoc]

/-- Helper: Python `max(l, default=0)` equals the spec-side maximum for
lists of nonnegative values. -/
theorem maxWithDefaultZero_eq_specMax (l : List ℚ) (h : ∀ x ∈ l, 0 ≤ x) :
    maxWithDefaultZero l = specMax l := by
  cases l with
  | nil => rfl
  | cons x xs =>
    have hx : 0 ≤ x := h x (List.mem_cons_self _ _)
    have hxs : ∀ y ∈ xs, 0 ≤ y := fun y hy => h y (List.mem_cons_of_mem _ hy)
    show xs.foldl max x = (x :: xs).foldr max 0
    rw [List.foldr_cons, foldl_max_eq_max_foldr x xs hx hxs]

/-- C2 counterexample: with 3 visual signals of which 1 is flagged, the
code stores `nsfw_ratio = round(1/3, 3) = 0.333`, not the exact quotient
1/3 the claim states. -/
theorem nsfw_ratio_rounded_counterexample :
    (aggregateVisual [⟨0, true, 1⟩, ⟨0, false, 1⟩, ⟨0, false, 1⟩]).nsfw_count = 1
      ∧ (aggregateVisual [⟨0, true, 1⟩, ⟨0, false, 1⟩, ⟨0, false, 1⟩]).nsfw_frac
          = 333/1000
      ∧ specRatio 1 3 = 1/3
      ∧ (aggregateVisual [⟨0, true, 1⟩, ⟨0, false, 1⟩, ⟨0, false, 1⟩]).nsfw_frac
          ≠ specRatio
              (aggregateVisual [⟨0, true, 1⟩, ⟨0, false, 1⟩, ⟨0, false, 1⟩]).nsfw_count
              3 := by
  have hr : roundTo3 ((1 : ℚ) / 3) = 333/1000 := by
    unfold roundTo3
    have h9 : round ((1 : ℚ) / 3 * 1000) = 333 := by
      rw [round_eq]
      have hfl : (⌊(1 : ℚ) / 3 * 1000 + 1 / 2⌋ : ℤ) = 333 := by
        rw [Int.floor_eq_iff]
        constructor <;> push_cast <;> norm_num
      exact hfl
    rw [h9]; norm_num
  have hc : (aggregateVisual [⟨0, true, 1⟩, ⟨0, false, 1⟩, ⟨0, false, 1⟩]).nsfw_count
      = 1 := rfl
  have hfrac : (aggregateVisual [⟨0, true, 1⟩, ⟨0, false, 1⟩, ⟨0, false, 1⟩]).nsfw_frac
      = roundTo3 ((1 : ℚ) / 3) := by
    simp [aggregateVisual]
  refine ⟨hc, ?_, by norm_num [specRatio], ?_⟩
  · rw [hfrac, hr]
  · rw [hfrac, hr, hc]
    norm_num [specRatio]

/-- C2 amended: the aggregation takes the arithmetic mean for toxicity,
sentiment and spam, the maximum (not the mean) for the three severe
metrics, the mean of nsfw scores and the flagged count; the stored
`nsfw_ratio` is the flagged ratio rounded to 3 decimal places (the only
form the code ever computes, at run_full_pipeline.py line 209); every
field of both aggregates is 0 on the empty population. -/
theorem aggregation_matches_spec :
    (∀ ts : List TextSignal,
      (aggregateText ts).avg_toxicity = specMean (ts.map TextSignal.toxicity)
        ∧ (aggregateText ts).avg_sentiment = specMean (ts.map TextSignal.sentiment_score)
        ∧ (aggregateText ts).avg_spam = specMean (ts.map TextSignal.spam_score))
    ∧ (∀ ts : List TextSignal,
        (∀ t ∈ ts, 0 ≤ t.identity_attack ∧ 0 ≤ t.insult ∧ 0 ≤ t.severe_toxicity) →
        (aggregateText ts).max_identity_attack = specMax (ts.map TextSignal.identity_attack)
          ∧ (aggregateText ts).max_insult = specMax (ts.map TextSignal.insult)
          ∧ (aggregateText ts).max_severe = specMax (ts.map TextSignal.severe_toxicity))
    ∧ (∀ vs : List VisualSignal,
        (aggregateVisual vs).avg_nsfw = specMean (vs.map VisualSignal.nsfw_score)
          ∧ (aggregateVisual vs).nsfw_count = (vs.filter (fun v => v.is_nsfw)).length
          ∧ (aggregateVisual vs).nsfw_frac
              = roundTo3 (specRatio (aggregateVisual vs).nsfw_count vs.length))
    ∧ aggregateText [] = ⟨0, 0, 0, 0, 0, 0⟩
    ∧ aggregateVisual [] = ⟨0, 0, 0⟩ := by
  refine ⟨?_, ?_, ?_, rfl, rfl⟩
  · intro ts
    exact ⟨avgOrZero_eq_specMean _, avgOrZero_eq_specMean _, avgOrZero_eq_specMean _⟩
  · intro ts h
    have hmap : ∀ (f : TextSignal → ℚ), (∀ t ∈ ts, 0 ≤ f t) →
        ∀ q ∈ ts.map f, 0 ≤ q := by
      intro f hf q hq
      obtain ⟨t, ht, rfl⟩ := List.mem_map.mp hq
      exact hf t ht
    exact ⟨maxWithDefaultZero_eq_specMax _ (hmap _ fun t ht => (h t ht).1),
      maxWithDefaultZero_eq_specMax _ (hmap _ fun t ht => (h t ht).2.1),
      maxWithDefaultZero_eq_specMax _ (hmap _ fun t ht => (h t ht).2.2)⟩
  · intro vs
    refine ⟨avgOrZero_eq_specMean _, rfl, ?_⟩
    cases vs with
    | nil => simp [aggregateVisual, specRatio, roundTo3]
    | cons v vs' => simp [aggregateVisual, specRatio]

/-- Witness for `aggregation_matches_spec`: the max-aggregation conjunct
applied to a concrete one-signal population with nonnegative scores. -/
theorem aggregation_matches_spec_witness :
    (aggregateText [⟨1/2, 1/3, 1/4, 1/5, 1/6, 1/7⟩]).max_identity_attack
        = specMax ([⟨1/2, 1/3, 1/4, 1/5, 1/6, 1/7⟩].map TextSignal.identity_attack)
      ∧ (aggregateText [⟨1/2, 1/3, 1/4, 1/5, 1/6, 1/7⟩]).max_insult
        = specMax ([⟨1/2, 1/3, 1/4, 1/5, 1/6, 1/7⟩].map TextSignal.insult)
      ∧ (aggregateText [⟨1/2, 1/3, 1/4, 1/5, 1/6, 1/7⟩]).max_severe
        = specMax ([⟨1/2, 1/3, 1/4, 1/5, 1/6, 1/7⟩].map TextSignal.severe_toxicity) :=
  aggregation_matches_spec.2.1 [⟨1/2, 1/3, 1/4, 1/5, 1/6, 1/7⟩]
    (by intro t ht; simp only [List.mem_singleton] at ht; subst ht; norm_num)

/-- Helper: the length of an if-then-singleton-else-nil list. -/
theorem length_ite_singleton {α : Type} (c : Prop) [Decidable c] (a : α) :
    (if c then [a] else []).length = if c then 1 else 0 := by
  split_ifs <;> rfl

/-- Helper: when at least one image was flagged, the raw safety total is
at most `100 - 20 * nsfw_images_found` (all other penalty terms are
nonnegative). -/
theorem rawSafetyScore_le (th : SafetyThresholds) (r : AnalysisSnapshot)
    (h : 0 < r.nsfw_images_found) :
    rawSafetyScore th r ≤ 100 - 20 * (r.nsfw_images_found : ℚ) := by
  unfold rawSafetyScore
  rw [if_pos h]
  have b1 : (0 : ℚ) ≤ if r.avg_toxicity > th.max_toxicity then 30 else 0 := by
    split_ifs <;> norm_num
  have b2 : (0 : ℚ) ≤ if r.max_identity_attack > th.max_identity_attack then 40 else 0 := by
    split_ifs <;> norm_num
  have b3 : (0 : ℚ) ≤ if r.max_insult > th.max_insult then 20 else 0 := by
    split_ifs <;> norm_num
  have b4 : (0 : ℚ) ≤ if r.max_severe_toxicity > th.max_severe_toxicity then 50 else 0 := by
    split_ifs <;> norm_num
  have b5 : (0 : ℚ) ≤ if r.avg_nsfw_score > th.max_nsfw then 40 else 0 := by
    split_ifs <;> norm_num
  linarith

/-- C4: the safety check subtracts the fixed penalties 30/40/20/50/40 per
exceeded threshold and `20 * nsfw_images_found` when any image was
flagged, records one risk entry per triggered check, floors the returned
sub-score at 0, and the raw (pre-floor) total is unbounded below as the
flagged-image count grows. -/
theorem safety_check_penalties :
    (∀ (th : SafetyThresholds) (r : AnalysisSnapshot),
      checkSafety th r = (max 0 (rawSafetyScore th r), safetyRisks th r)
        ∧ 0 ≤ (checkSafety th r).1
        ∧ (safetyRisks th r).length = triggeredSafetyChecks th r)
    ∧ (∀ (th : SafetyThresholds) (q : ℚ), ∃ r : AnalysisSnapshot,
        rawSafetyScore th r < q ∧ checkSafety th r = (max 0 (rawSafetyScore th r), safetyRisks th r)) := by
  constructor
  · intro th r
    refine ⟨rfl, le_max_left 0 _, ?_⟩
    simp only [safetyRisks, triggeredSafetyChecks, List.length_append,
      length_ite_singleton]
  · intro th q
    refine ⟨⟨0, 0, 0, 0, 0, 0, ⌈(100 - q) / 20⌉₊ + 1⟩, ?_, rfl⟩
    set n : ℕ := ⌈(100 - q) / 20⌉₊ + 1 with hn
    have hproj : (⟨0, 0, 0, 0, 0, 0, n⟩ : AnalysisSnapshot).nsfw_images_found = n := rfl
    have hpos : 0 < (⟨0, 0, 0, 0, 0, 0, n⟩ : AnalysisSnapshot).nsfw_images_found := by
      rw [hproj]; exact Nat.succ_pos _
    have hle := rawSafetyScore_le th ⟨0, 0, 0, 0, 0, 0, n⟩ hpos
    rw [hproj] at hle
    have hceil : (100 - q) / 20 ≤ (⌈(100 - q) / 20⌉₊ : ℚ) := Nat.le_ceil _
    have h100 : 100 - q ≤ 20 * (⌈(100 - q) / 20⌉₊ : ℚ) := by
      rw [div_le_iff₀ (by norm_num : (0 : ℚ) < 20)] at hceil
      linarith
    have hcast : ((n : ℕ) : ℚ) = (⌈(100 - q) / 20⌉₊ : ℚ) + 1 := by
      rw [hn]; push_cast; ring
    rw [hcast] at hle
    linarith

/-- Concrete instance of the uncapped image-count penalty: with 6 flagged
images against fully permissive thresholds the raw safety total is
already negative. -/
theorem raw_safety_score_concrete_negative :
    rawSafetyScore ⟨1, 1, 1, 1, 1⟩ ⟨0, 0, 0, 0, 0, 0, 6⟩ < 0 := by
  norm_num [rawSafetyScore]

/-- C6: the excluded-topics check returns `(100, [])` for every input, so
`analyze_fit` never subtracts a topic deficit, never appends a topic risk
(the risk factors are exactly the safety risks), and the stored
`topic_score` is always 100; the fit score is determined by the safety
deficit and the values bonus alone. -/
theorem excluded_topics_noop :
    (∀ (excluded : List String) (r : AnalysisSnapshot),
      checkExcludedTopics excluded r = (100, []))
    ∧ (∀ (p : BrandProfile) (r : AnalysisSnapshot),
        (analyzeFit p r).topic_score = 100
          ∧ (analyzeFit p r).risk_factors = safetyRisks p.safety_thresholds r
          ∧ (analyzeFit p r).fit_score = roundTo1 (max 0 (min 100
              ((if (safetyRisks p.safety_thresholds r).isEmpty then (100 : ℚ)
                else 100 - (100 - max 0 (rawSafetyScore p.safety_thresholds r)))
                + (if r.avg_sentiment > 1/2 then 5 else 0))))) := by
  refine ⟨fun excluded r => rfl, ?_⟩
  intro p r
  refine ⟨rfl, ?_, ?_⟩
  · show (if (safetyRisks p.safety_thresholds r).isEmpty then []
        else safetyRisks p.safety_thresholds r)
      ++ (if (([] : List RiskFactor)).isEmpty then [] else []) = _
    by_cases hs : (safetyRisks p.safety_thresholds r).isEmpty
    · rw [List.isEmpty_iff] at hs
      simp [hs]
    · simp [hs]
  · show roundTo1 (max 0 (min 100 _)) = _
    by_cases hv : r.avg_sentiment > 1/2
    · simp only [analyzeFit, checkSafety, checkExcludedTopics,
        checkValuesAlignment, if_pos hv, List.isEmpty_nil]
      norm_num
    · simp only [analyzeFit, checkSafety, checkExcludedTopics,
        checkValuesAlignment, if_neg hv, List.isEmpty_nil]
      norm_num

/-- C7 counterexample: with the repository weight constants and no API
token, `validate_config` detects the error, yet the module import
completes with `Except.ok` (only a warning is recorded) rather than with
a blocking failure, so processing is not prevented. -/
theorem config_invalid_not_blocking_counterexample :
    validate_config repoConfigNoToken
        = Except.error ["APIFY_API_TOKEN not set in .env file"]
      ∧ configImport repoConfigNoToken
        = Except.ok (some ["APIFY_API_TOKEN not set in .env file"]) := by
  have h1 : configErrors repoConfigNoToken = ["APIFY_API_TOKEN not set in .env file"] := by
    norm_num [configErrors, repoConfigNoToken, tokenMissing]
  constructor
  · simp only [validate_config, h1]
  · simp only [configImport, validate_config, h1]

/-- C7 amended: a configuration error is detected at process start by
`validate_config` (which raises), but the import-time hook catches the
exception and records only a printed warning: the import always
completes, with a warning exactly when the configuration is invalid, so
the failure never blocks creator processing. -/
theorem config_validation_warns_but_never_blocks :
    ∀ c : Config, ∃ w, configImport c = Except.ok w
      ∧ (w = none ↔ configErrors c = []) := by
  intro c
  cases hc : configErrors c with
  | nil =>
    refine ⟨none, ?_, by simp⟩
    simp [configImport, validate_config, hc]
  | cons e es =>
    refine ⟨some (e :: es), ?_, by simp [hc]⟩
    simp [configImport, validate_config, hc]

/-- C8 counterexample: the hardcoded per-video flag threshold equals the
default individual-image threshold (both 0.7); it is not stricter in
either direction. -/
theorem video_threshold_not_stricter_counterexample :
    videoNsfwFlagThreshold = imageNsfwThreshold none
      ∧ ¬ videoNsfwFlagThreshold < imageNsfwThreshold none
      ∧ ¬ imageNsfwThreshold none < videoNsfwFlagThreshold := by
  refine ⟨rfl, ?_, ?_⟩ <;>
    norm_num [videoNsfwFlagThreshold, imageNsfwThreshold]

/-- C8 amended: the synthetic per-video signal scores the mean of the
per-frame NSFW scores and flags `is_nsfw` exactly when the per-frame
maximum exceeds a hardcoded 0.7 threshold; that threshold is separate
from the configurable image threshold but equal to its default value,
not stricter. -/
theorem synthetic_video_signal_mean_max :
    ∀ frames : List FrameSignal, frames ≠ [] →
      (syntheticVideoSignal frames).nsfw_score
          = specMean (frames.map FrameSignal.nsfw_score)
        ∧ ((syntheticVideoSignal frames).is_nsfw = true
            ↔ maxWithDefaultZero (frames.map FrameSignal.nsfw_score)
                > videoNsfwFlagThreshold)
        ∧ videoNsfwFlagThreshold = imageNsfwThreshold none := by
  intro frames hne
  match frames, hne with
  | f :: fs, _ =>
    refine ⟨?_, ?_, rfl⟩
    · show (((f :: fs).map FrameSignal.nsfw_score).sum : ℚ) / (f :: fs).length
          = specMean ((f :: fs).map FrameSignal.nsfw_score)
      simp [specMean]
    · show decide ((fs.map FrameSignal.nsfw_score).foldl max f.nsfw_score
          > videoNsfwFlagThreshold) = true ↔ _
      rw [decide_eq_true_iff]
      rfl

/-- Witness for `synthetic_video_signal_mean_max` at a concrete
two-frame video. -/
theorem synthetic_video_signal_mean_max_witness :
    (syntheticVideoSignal [⟨1/2, false⟩, ⟨3/4, true⟩]).nsfw_score
        = specMean ([⟨1/2, false⟩, ⟨3/4, true⟩].map FrameSignal.nsfw_score)
      ∧ ((syntheticVideoSignal [⟨1/2, false⟩, ⟨3/4, true⟩]).is_nsfw = true
          ↔ maxWithDefaultZero ([⟨1/2, false⟩, ⟨3/4, true⟩].map FrameSignal.nsfw_score)
              > videoNsfwFlagThreshold)
      ∧ videoNsfwFlagThreshold = imageNsfwThreshold none :=
  synthetic_video_signal_mean_max [⟨1/2, false⟩, ⟨3/4, true⟩] (by simp)

/-- Helper: the clamped spam score exceeds 0.5 exactly when at least
three patterns matched. -/
theorem spam_min_gt_half (n : ℕ) :
    (1/2 : ℚ) < min 1 ((n : ℚ) * (1/4)) ↔ 3 ≤ n := by
  constructor
  · intro h
    by_contra hn
    push_neg at hn
    have h2 : (n : ℚ) ≤ 2 := by exact_mod_cast Nat.lt_succ_iff.mp hn
    have h3 : (n : ℚ) * (1/4) ≤ 1/2 := by linarith
    have := min_le_right (1 : ℚ) ((n : ℚ) * (1/4))
    linarith
  · intro h
    have h3 : (3 : ℚ) ≤ (n : ℚ) := by exact_mod_cast h
    rw [lt_min_iff]
    constructor
    · norm_num
    · linarith

/-- C9: spam detection scores `min(1, 0.25 * patterns matched)`, so the
score lies in [0, 1]; `is_spam` holds exactly when the score exceeds
0.5, i.e. when at least three patterns matched; and the empty string
yields the all-clear result with an empty pattern list. -/
theorem spam_detection_score_bounds :
    (∀ text : String,
      (detect_spam_patterns text).spam_score
          = min 1 (((detect_spam_patterns text).patterns.length : ℚ) * (1/4))
        ∧ 0 ≤ (detect_spam_patterns text).spam_score
        ∧ (detect_spam_patterns text).spam_score ≤ 1
        ∧ ((detect_spam_patterns text).is_spam = true
            ↔ (detect_spam_patterns text).spam_score > 1/2)
        ∧ ((detect_spam_patterns text).is_spam = true
            ↔ 3 ≤ (detect_spam_patterns text).patterns.length))
    ∧ detect_spam_patterns ""
        = { is_spam := false, spam_score := 0, patterns := [] } := by
  refine ⟨?_, rfl⟩
  intro text
  by_cases h : text = ""
  · subst h
    refine ⟨by norm_num [detect_spam_patterns], by norm_num [detect_spam_patterns],
      by norm_num [detect_spam_patterns], ?_, ?_⟩ <;>
      simp [detect_spam_patterns]
  · have e : detect_spam_patterns text =
        { is_spam := decide (min 1 (((spamPatternsFound text).length : ℚ) * (1/4)) > 1/2)
          spam_score := min 1 (((spamPatternsFound text).length : ℚ) * (1/4))
          patterns := spamPatternsFound text } := by
      unfold detect_spam_patterns
      rw [if_neg h]
    rw [e]
    refine ⟨rfl, ?_, ?_, ?_, ?_⟩
    · exact le_min (by norm_num) (by positivity)
    · exact min_le_left _ _
    · simp only [decide_eq_true_iff]
    · simp only [decide_eq_true_iff, gt_iff_lt]
      exact spam_min_gt_half _

/-- Witness for `persisted_reputation_inconsistent` at the concrete score
89.996. -/
theorem persisted_reputation_inconsistent_witness :
    (persistedReputation (89996/1000)).1 = 90
      ∧ (persistedReputation (89996/1000)).2 = "Good"
      ∧ get_rating (persistedReputation (89996/1000)).1 = "Excellent"
      ∧ get_rating (persistedReputation (89996/1000)).1
          ≠ (persistedReputation (89996/1000)).2 :=
  persisted_reputation_inconsistent (89996/1000) (by norm_num) (by norm_num)

end CloutCheck
